import Mathlib

/-!
Shallow embedding of `webpack.common.config.ts` from blackshark-ai/flyteconsole.

The file under verification is a declarative webpack configuration.  We embed
the pure value-level content of the file: the version sanitizer
`absoluteVersion`, the environment projector `getDefinePlugin` (together with
the string case of `JSON.stringify`, which it applies to every environment
value), the `serviceName` default, the client and server configuration
objects (entry, resolve, optimization/splitChunks, output, plugins,
externals), and the regex tests appearing in them, rendered as executable
predicates on strings.
-/

namespace WebpackConfig

/-! ### Version sanitizer

Source: `absoluteVersion(version) = version.replace(/[^\d.\-a-z]/g, '')`.
The regex deletes every character outside the class `[\d.\-a-z]`, i.e. it
keeps ASCII digits (`\d` = `[0-9]`), `.`, `-`, and lowercase `a`-`z`.  -/

/-- Membership in the regex character class `[\d.\-a-z]` of the source:
ASCII digit, period, hyphen, or lowercase ASCII letter. -/
def inVersionClass (c : Char) : Bool :=
  c.isDigit || c == '.' || c == '-' || ('a' ≤ c && c ≤ 'z')

/-- Source `version.replace(/[^\d.\-a-z]/g, '')`: delete every character not
in the class, keeping the rest in order. -/
def absoluteVersion (version : String) : String :=
  String.mk (version.data.filter inVersionClass)

/-! ### JSON string encoding

`getDefinePlugin` applies `JSON.stringify` to each environment value; the
values of `process.env` are strings, so only the string case of
`JSON.stringify` (ECMA-262 QuoteJSONString) is relevant: wrap in double
quotes, escaping `"` and backslash, the named control characters
(backspace, tab, line feed, form feed, carriage return) and every other
code point below U+0020 as `\u00XX` with lowercase hex digits. -/

/-- Lowercase hexadecimal digit for `n < 16`. -/
def hexDigit (n : Nat) : Char :=
  if n < 10 then Char.ofNat (48 + n) else Char.ofNat (87 + n)

/-- QuoteJSONString escape of a single character. -/
def escapeJSONChar (c : Char) : List Char :=
  if c == '"' then ['\\', '"']
  else if c == '\\' then ['\\', '\\']
  else if c == '\x08' then ['\\', 'b']
  else if c == '\x09' then ['\\', 't']
  else if c == '\x0a' then ['\\', 'n']
  else if c == '\x0c' then ['\\', 'f']
  else if c == '\x0d' then ['\\', 'r']
  else if c.toNat < 0x20 then
    ['\\', 'u', '0', '0', hexDigit (c.toNat / 16), hexDigit (c.toNat % 16)]
  else [c]

/-- Encoding `JSON.stringify` applies to a string value: a double-quoted
literal with every character escaped by `escapeJSONChar`. -/
def jsonStringify (s : String) : String :=
  String.mk ('"' :: (s.data.flatMap escapeJSONChar ++ ['"']))

/-! ### Environment projector (`getDefinePlugin`) -/

/-- The value bound to the key `process.env` in the `DefinePlugin`
configuration: either a raw code fragment (the pass-through sentinel
`'process.env'`) or an object mapping each key to a literal. -/
inductive ProcessEnvValue where
  | code (fragment : String)
  | mapping (entries : List (String × String))
deriving DecidableEq

/-- The argument object of `new webpack.DefinePlugin({...})` built by
`getDefinePlugin`: the `process.env` replacement and the `__isServer`
boolean flag. -/
structure DefinePluginConfig where
  processEnv : ProcessEnvValue
  isServer : Bool
deriving DecidableEq

/-- Source:
`getDefinePlugin = (isServer) => new webpack.DefinePlugin({ 'process.env':
isServer ? 'process.env' : Object.keys(env).reduce((result, key) =>
({...result, [key]: JSON.stringify(env[key])}), {}), __isServer: isServer })`.

The environment object `env` is modelled as its entry list (`Object.keys`
order, keys unique as in any JS object); the `reduce` with object spread
appends one encoded entry per key, folded from the left. -/
def getDefinePlugin (env : List (String × String)) (isServer : Bool) :
    DefinePluginConfig :=
  { processEnv :=
      if isServer then
        ProcessEnvValue.code "process.env"
      else
        ProcessEnvValue.mapping
          (env.foldl (fun result kv => result ++ [(kv.1, jsonStringify kv.2)]) []),
    isServer := isServer }

/-! ### Service name

Source: `export const serviceName = process.env.SERVICE_NAME || 'not set';`.
An environment variable is either absent (`undefined`) or a string; `||`
falls through to the default exactly on the falsy values, which for an
optional string are `undefined` and the empty string. -/

def serviceName (envVar : Option String) : String :=
  match envVar with
  | none => "not set"
  | some s => if s = "" then "not set" else s

/-! ### Regex tests as string predicates -/

/-- Substring occurrence: does `needle` occur as a contiguous substring of
the haystack? -/
def hasSubstr (needle : List Char) : List Char → Bool
  | [] => needle.isEmpty
  | c :: rest => needle.isPrefixOf (c :: rest) || hasSubstr needle rest

/-- The test regex `/[\\/]node_modules/` of the vendor cache group: the
string contains a backslash or forward slash immediately followed by
`node_modules`. -/
def vendorTestMatch : List Char → Bool
  | [] => false
  | c :: rest =>
      ((c == '/' || c == '\\') && List.isPrefixOf "node_modules".data rest)
        || vendorTestMatch rest

/-- The vendor cache group test applied to a module path. -/
def vendorTest (modulePath : String) : Bool :=
  vendorTestMatch modulePath.data

/-- The allowlist regex `/lyft/` of `nodeExternals({ allowlist: /lyft/ })`:
matches any module name containing the substring `lyft`. -/
def lyftAllowlist (moduleName : String) : Bool :=
  hasSubstr "lyft".data moduleName.data

/-- Does a filename template contain a webpack hash placeholder
(`[fullhash...]`, `[chunkhash...]`, `[contenthash...]` or `[hash...]`)? -/
def hasHashPlaceholder (s : String) : Bool :=
  hasSubstr "[fullhash".data s.data || hasSubstr "[chunkhash".data s.data
    || hasSubstr "[contenthash".data s.data || hasSubstr "[hash".data s.data

/-! ### Configuration data model

The pieces of `webpack.Configuration` that the file actually sets.  The
loader rules (`sourceMapRule`, `typescriptRule`, `imageAndFontsRule`) are
pure loader wiring with no decision logic of interest here and are kept as
named markers in the `module.rules` list. -/

/-- A plugin instance in a `plugins` list.  `forkTsChecker` and `favIcon`
carry no modelled configuration; `statsWriter` records the stats filename
and field list; `define` is the result of `getDefinePlugin`;
`limitChunkCount` is `webpack.optimize.LimitChunkCountPlugin` with its
`maxChunks` option. -/
inductive Plugin where
  | forkTsChecker
  | favIcon
  | statsWriter (filename : String) (fields : List String)
  | define (cfg : DefinePluginConfig)
  | limitChunkCount (maxChunks : Nat)
deriving DecidableEq

/-- Source: `limitChunksPlugin = new webpack.optimize.LimitChunkCountPlugin({
maxChunks: 1 })`. -/
def limitChunksPlugin : Plugin := Plugin.limitChunkCount 1

/-- Source: `statsWriterPlugin = new StatsWriterPlugin({ filename:
'client-stats.json', fields: [...] })`. -/
def statsWriterPlugin : Plugin :=
  Plugin.statsWriter "client-stats.json"
    ["chunks", "publicPath", "assets", "assetsByChunkName", "assetsByChunkId"]

/-- One entry of `optimization.splitChunks.cacheGroups`. -/
structure CacheGroup where
  chunks : String
  enforce : Bool
  name : String
  priority : Int
  test : String → Bool

/-- The single `vendor` cache group of the client configuration:
`{ chunks: 'initial', enforce: true, name: 'vendor', priority: 10,
test: /[\\/]node_modules/ }`. -/
def vendorCacheGroup : CacheGroup :=
  { chunks := "initial"
    enforce := true
    name := "vendor"
    priority := 10
    test := vendorTest }

/-- Block `optimization.splitChunks`: the cache groups keyed by property
name. -/
structure SplitChunksConfig where
  cacheGroups : List (String × CacheGroup)

structure OptimizationConfig where
  splitChunks : SplitChunksConfig

/-- The `resolve` block: base directories, omittable extensions, and
`package.json` main fields, in consulted order. -/
structure ResolveConfig where
  modules : List String
  extensions : List String
  mainFields : List String
deriving DecidableEq

/-- The `output` block.  Keys the source omits in one of the two profiles
(`chunkFilename`, `libraryTarget`, `clean`) are `Option`-valued, `none`
meaning the key is absent. -/
structure OutputConfig where
  publicPath : String
  path : String
  filename : String
  chunkFilename : Option String
  libraryTarget : Option String
  clean : Option Bool
deriving DecidableEq

/-- The argument object of `nodeExternals({ allowlist: /lyft/ })`: the
allowlist pattern as a predicate on module names. -/
structure NodeExternalsConfig where
  allowlist : String → Bool

/-- Modelled from the spec: the decision rule of the external
`webpack-node-externals` package (its implementation is not part of this
repository).  Per the spec, the externalization rule "excludes all
host-provided runtime packages from being bundled ... except for one
explicitly allow-listed package-name pattern (internal packages bypass
externalization and are inlined)": a module is externalized iff it is a
host-provided (node_modules) package and its name does not match the
allowlist. -/
def isExternalized (cfg : NodeExternalsConfig) (isHostProvided : Bool)
    (moduleName : String) : Bool :=
  isHostProvided && !(cfg.allowlist moduleName)

/-- Marker for an entry of `module.rules` (the loader wiring itself is not
under verification). -/
inductive ModuleRule where
  | sourceMapRule
  | typescriptRule
  | imageAndFontsRule
deriving DecidableEq

/-- The slice of `webpack.Configuration` that the source file sets.
`externalsNode` renders `externalsPresets: { node: true }` (absent in the
client profile, hence `false` there). -/
structure Configuration where
  name : String
  target : String
  resolve : ResolveConfig
  entry : List String
  moduleRules : List ModuleRule
  optimization : Option OptimizationConfig
  externalsNode : Bool
  externals : List NodeExternalsConfig
  output : OutputConfig
  plugins : List Plugin

/-- The `resolve` block, identical in both profiles. -/
def commonResolve : ResolveConfig :=
  { modules := ["src", "node_modules"]
    extensions := [".ts", ".tsx", ".js", ".jsx"]
    mainFields := ["browser", "module", "main"] }

/-- Source: `clientConfig`.  The file-system and environment inputs
(`env` from `./env`, the public path `${env.BASE_URL}/assets/`, and the
absolute `dist` directory) are parameters of the embedding. -/
def clientConfig (env : List (String × String)) (publicPath distDir : String) :
    Configuration :=
  { name := "client"
    target := "web"
    resolve := commonResolve
    entry := ["babel-polyfill", "./src/client"]
    moduleRules :=
      [ModuleRule.sourceMapRule, ModuleRule.typescriptRule,
        ModuleRule.imageAndFontsRule]
    optimization :=
      some { splitChunks := { cacheGroups := [("vendor", vendorCacheGroup)] } }
    externalsNode := false
    externals := []
    output :=
      { publicPath := publicPath
        path := distDir
        filename := "[name]-[fullhash:8].js"
        chunkFilename := some "[name]-[chunkhash].chunk.js"
        libraryTarget := none
        clean := some true }
    plugins :=
      [Plugin.forkTsChecker, Plugin.favIcon, statsWriterPlugin,
        Plugin.define (getDefinePlugin env false)] }

/-- Source: `serverConfig`. -/
def serverConfig (env : List (String × String)) (distDir : String) :
    Configuration :=
  { name := "server"
    target := "node"
    resolve := commonResolve
    entry := ["babel-polyfill", "./src/server"]
    moduleRules :=
      [ModuleRule.sourceMapRule, ModuleRule.typescriptRule,
        ModuleRule.imageAndFontsRule]
    optimization := none
    externalsNode := true
    externals := [{ allowlist := lyftAllowlist }]
    output :=
      { publicPath := "/"
        path := distDir
        filename := "server.js"
        chunkFilename := none
        libraryTarget := some "commonjs2"
        clean := none }
    plugins :=
      [limitChunksPlugin, Plugin.forkTsChecker,
        Plugin.define (getDefinePlugin env true)] }

/-- Projection extracting the `maxChunks` option from a chunk-limiting
plugin, `none` on every other plugin. -/
def limitChunkValue : Plugin → Option Nat
  | Plugin.limitChunkCount n => some n
  | _ => none

/-! ### Helper lemmas -/

/-- The `reduce` of `getDefinePlugin` appends one encoded entry per key: it
equals the map of the encoding over the entry list. -/
theorem foldl_encode_eq_map (env : List (String × String))
    (acc : List (String × String)) :
    env.foldl (fun result kv => result ++ [(kv.1, jsonStringify kv.2)]) acc
      = acc ++ env.map (fun kv => (kv.1, jsonStringify kv.2)) := by
  induction env generalizing acc with
  | nil => simp
  | cons kv rest ih => simp [List.foldl_cons, ih]

/-- The class test of `inVersionClass` agrees pointwise with the predicate
"digit, lowercase letter, period, or hyphen". -/
theorem inVersionClass_eq (c : Char) :
    inVersionClass c
      = (c.isDigit || ('a' ≤ c && c ≤ 'z') || c == '.' || c == '-') := by
  rw [Bool.eq_iff_iff]
  simp [inVersionClass]
  tauto

/-- The regex `/[\\/]node_modules/` matches any string with a slash or
backslash immediately followed by `node_modules`. -/
theorem vendorTestMatch_of_append (pre suf : List Char) (c : Char)
    (h : c = '/' ∨ c = '\\') :
    vendorTestMatch (pre ++ c :: ("node_modules".data ++ suf)) = true := by
  induction pre with
  | nil =>
    rcases h with h | h <;> subst h <;>
      simp [vendorTestMatch, List.isPrefixOf_iff_prefix, List.prefix_append]
  | cons x xs ih =>
    have hstep : vendorTestMatch ((x :: xs) ++ c :: ("node_modules".data ++ suf))
        = (((x == '/' || x == '\\')
            && List.isPrefixOf "node_modules".data
                (xs ++ c :: ("node_modules".data ++ suf)))
          || vendorTestMatch (xs ++ c :: ("node_modules".data ++ suf))) := rfl
    rw [hstep, ih, Bool.or_true]

/-! ### Claim theorems -/

/-- C1: for every environment mapping, `getDefinePlugin` with the browser
target (`isServer = false`) produces a mapping whose keys are exactly the
environment's keys, each value the `JSON.stringify` encoding of the
corresponding environment value (hence a double-quoted literal), and an
`__isServer` flag equal to `false`. -/
theorem getDefinePlugin_browser_projection (env : List (String × String)) :
    (getDefinePlugin env false).isServer = false ∧
    (getDefinePlugin env false).processEnv =
      ProcessEnvValue.mapping (env.map fun kv => (kv.1, jsonStringify kv.2)) ∧
    (env.map fun kv => (kv.1, jsonStringify kv.2)).map Prod.fst
      = env.map Prod.fst ∧
    ∀ v : String, ∃ body : List Char,
      (jsonStringify v).data = '"' :: (body ++ ['"']) := by
  refine ⟨rfl, ?_, ?_, fun v => ⟨v.data.flatMap escapeJSONChar, rfl⟩⟩
  · simp [getDefinePlugin, foldl_encode_eq_map]
  · simp [List.map_map, Function.comp]

/-- C2: for every environment mapping, `getDefinePlugin` with the
server-runtime target (`isServer = true`) returns the pass-through sentinel
(the literal `process.env` code fragment) regardless of the environment's
contents, with an `__isServer` flag equal to `true`. -/
theorem getDefinePlugin_server_passthrough (env : List (String × String)) :
    getDefinePlugin env true =
      { processEnv := ProcessEnvValue.code "process.env", isServer := true } :=
  rfl

/-- C3: `absoluteVersion` deletes every character that is not a digit,
lowercase letter, period, or hyphen, keeping the rest in order; the empty
string maps to the empty string, and `^1.2.3-alpha.1` maps to
`1.2.3-alpha.1`. -/
theorem absoluteVersion_characterization :
    absoluteVersion "" = "" ∧
    absoluteVersion "^1.2.3-alpha.1" = "1.2.3-alpha.1" ∧
    ∀ s : String, (absoluteVersion s).data =
      s.data.filter fun c =>
        c.isDigit || ('a' ≤ c && c ≤ 'z') || c == '.' || c == '-' := by
  refine ⟨rfl, by decide, fun s => ?_⟩
  exact List.filter_congr (fun c _ => inVersionClass_eq c)

/-- C4: `absoluteVersion` is idempotent, and its result is a subsequence of
the input whose members are exactly the input's characters lying in the
class of digits, lowercase letters, periods and hyphens. -/
theorem absoluteVersion_idempotent_sublist (s : String) :
    absoluteVersion (absoluteVersion s) = absoluteVersion s ∧
    (absoluteVersion s).data.Sublist s.data ∧
    ∀ c : Char,
      c ∈ (absoluteVersion s).data ↔ c ∈ s.data ∧ inVersionClass c = true := by
  refine ⟨?_, List.filter_sublist s.data, fun c => ?_⟩
  · show String.mk ((s.data.filter inVersionClass).filter inVersionClass) = _
    rw [List.filter_eq_self.mpr (fun a ha => (List.mem_filter.mp ha).2)]
    rfl
  · exact List.mem_filter

/-- C5: the client profile's code-splitting policy consists of exactly one
cache group, named `vendor`, applying to initial chunks, enforced, with
priority 10 (positive, hence above the default 0), whose test accepts every
path containing a slash or backslash followed by `node_modules` — in
particular every resolved path lying under a `node_modules` directory. -/
theorem clientVendorSplitting (env : List (String × String))
    (publicPath distDir : String) :
    (clientConfig env publicPath distDir).optimization =
      some { splitChunks := { cacheGroups := [("vendor", vendorCacheGroup)] } } ∧
    vendorCacheGroup.name = "vendor" ∧
    vendorCacheGroup.chunks = "initial" ∧
    vendorCacheGroup.enforce = true ∧
    vendorCacheGroup.priority = 10 ∧
    vendorCacheGroup.priority > 0 ∧
    ∀ pre suf : String, ∀ c : Char, c = '/' ∨ c = '\\' →
      vendorCacheGroup.test (pre ++ String.singleton c ++ "node_modules" ++ suf)
        = true := by
  refine ⟨rfl, rfl, rfl, rfl, rfl, by norm_num [vendorCacheGroup],
    fun pre suf c h => ?_⟩
  show vendorTest _ = true
  unfold vendorTest
  rw [String.data_append, String.data_append, String.data_append]
  simpa [List.append_assoc] using
    vendorTestMatch_of_append pre.data suf.data c h

/-- C6: the server profile carries exactly one chunk-limiting plugin, with
`maxChunks = 1`, and its output filename is the fixed string `server.js`,
which contains no content-hash placeholder. -/
theorem serverSingleChunk (env : List (String × String)) (distDir : String) :
    (serverConfig env distDir).plugins.filterMap limitChunkValue = [1] ∧
    limitChunksPlugin = Plugin.limitChunkCount 1 ∧
    limitChunksPlugin ∈ (serverConfig env distDir).plugins ∧
    (serverConfig env distDir).output.filename = "server.js" ∧
    hasHashPlaceholder (serverConfig env distDir).output.filename = false := by
  refine ⟨?_, rfl, ?_, rfl,
    (show hasHashPlaceholder "server.js" = false by decide)⟩
  · simp [serverConfig, limitChunksPlugin, List.filterMap, limitChunkValue]
  · simp [serverConfig]

/-- C7: the client profile's output policy names entry files
`[name]-[fullhash:8].js`, split chunk files `[name]-[chunkhash].chunk.js`,
and enables clearing the output directory before each build. -/
theorem clientOutputNaming (env : List (String × String))
    (publicPath distDir : String) :
    (clientConfig env publicPath distDir).output.filename
      = "[name]-[fullhash:8].js" ∧
    (clientConfig env publicPath distDir).output.chunkFilename
      = some "[name]-[chunkhash].chunk.js" ∧
    (clientConfig env publicPath distDir).output.clean = some true :=
  ⟨rfl, rfl, rfl⟩

/-- C8: the server profile's externalization rule carries the single
allowlist pattern `/lyft/`; a module matching the pattern is never
externalized, and any other host-provided package is externalized. -/
theorem serverExternalization (env : List (String × String))
    (distDir : String) :
    (serverConfig env distDir).externals = [{ allowlist := lyftAllowlist }] ∧
    (∀ moduleName : String, lyftAllowlist moduleName = true →
      ∀ isHostProvided : Bool,
        isExternalized { allowlist := lyftAllowlist } isHostProvided moduleName
          = false) ∧
    (∀ moduleName : String, lyftAllowlist moduleName = false →
      isExternalized { allowlist := lyftAllowlist } true moduleName = true) := by
  refine ⟨rfl, fun moduleName h isHostProvided => ?_, fun moduleName h => ?_⟩
  · simp [isExternalized, h]
  · simp [isExternalized, h]

/-- Witness for C8 at concrete module names. -/
theorem serverExternalization_witness :
    isExternalized { allowlist := lyftAllowlist } true "@lyft/flyteidl" = false ∧
    isExternalized { allowlist := lyftAllowlist } true "express" = true :=
  ⟨(serverExternalization [] "").2.1 "@lyft/flyteidl" (by decide) true,
    (serverExternalization [] "").2.2 "express" (by decide)⟩

/-- C9: profile construction does not fail when `SERVICE_NAME` is unset: the
service name defaults to the placeholder `not set`; a non-empty value is
exported unchanged. -/
theorem serviceNameDefault :
    serviceName none = "not set" ∧
    ∀ s : String, s ≠ "" → serviceName (some s) = s := by
  refine ⟨rfl, fun s h => ?_⟩
  simp [serviceName, h]

/-- Witness for C9 at a concrete non-empty service name. -/
theorem serviceNameDefault_witness :
    serviceName (some "flyteconsole") = "flyteconsole" :=
  serviceNameDefault.2 "flyteconsole" (by decide)

/-- C10: the default applies to every falsy value: an empty `SERVICE_NAME`
also yields the placeholder, and the exported service name is never the
empty string. -/
theorem serviceNameNeverEmpty :
    serviceName (some "") = "not set" ∧
    ∀ v : Option String, serviceName v ≠ "" := by
  refine ⟨rfl, fun v => ?_⟩
  cases v with
  | none => simp [serviceName]
  | some s =>
    by_cases h : s = "" <;> simp [serviceName, h]

/-- Witness for C5 at a concrete module path under `node_modules`. -/
theorem clientVendorSplitting_witness :
    vendorCacheGroup.test
      ("/home/app" ++ String.singleton '/' ++ "node_modules" ++ "/react/index.js")
      = true :=
  (clientVendorSplitting [] "" "").2.2.2.2.2.2 "/home/app" "/react/index.js"
    '/' (Or.inl rfl)

end WebpackConfig
